import Mathlib

/-!
Shallow embedding of `src/quote_scraper.py` (class `QuoteScraper`) and proofs
about its behaviour.

Modelling conventions:
- A scraped record (a Python dict with keys `text`, `author`, `tags`,
  `scraped_at`) is the structure `Quote`.
- The HTML tokenizer/DOM engine (BeautifulSoup) is a black-box library, so a
  parsed page is modelled at the level `scrape_page` consumes it: the list of
  `div.quote` containers returned by `soup.find_all`, in document order, where
  each container records the text content of its first `span.text` child (or
  none when absent), of its first `small.author` child (or none), and the
  ordered text contents of its `a.tag` children.  `.get_text()` on a found
  element yields the stored string as-is (BeautifulSoup does not strip
  whitespace unless asked to).
- The HTTP transport (`requests`) is a black box: a request either fails at
  transport level (raising a `RequestException`) or yields a response with a
  status code and a parsed body.  `response.raise_for_status()` raises an
  `HTTPError` (a `RequestException`) exactly for 4xx/5xx status codes.
- Python exceptions are modelled with `Except String`: `Except.error e` means
  the call raised an uncaught exception `e`.  The `try/except
  requests.RequestException` block of `scrape_page` catches only
  transport/protocol errors; an `AttributeError` raised by calling
  `.get_text()` on a `None` result of `find` is not caught and propagates.
- `datetime.now().isoformat()` is modelled by a clock function `Nat → String`
  giving the wall-clock reading at each successive extraction.
-/

/-- A scraped record, as built at quote_scraper.py:70-75. -/
structure Quote where
  text : String
  author : String
  tags : List String
  scraped_at : String
deriving DecidableEq, Repr

/-- One `div.quote` container of a parsed page, as seen by the DOM queries in
quote_scraper.py:62-68: the first `span.text` child's text content (none if the
element is missing), the first `small.author` child's text content, and the
ordered `a.tag` children's text contents. -/
structure QuoteDiv where
  textElem : Option String
  authorElem : Option String
  tagElems : List String
deriving DecidableEq, Repr

/-- The outcome of `self.session.get(url, timeout=10)` followed by HTML
parsing: either a transport-level failure (a `RequestException`), or a
response with its HTTP status code and its body parsed into the list of
`div.quote` containers in document order. -/
inductive HttpResult where
  | transportError (msg : String)
  | response (status : Nat) (body : List QuoteDiv)
deriving DecidableEq, Repr

/-- Status codes for which `response.raise_for_status()` raises `HTTPError`:
client errors (4xx) and server errors (5xx). -/
def errorStatus (status : Nat) : Bool :=
  decide (400 ≤ status ∧ status < 600)

/-- Extraction of one record from one container, quote_scraper.py:60-75.
`quote.find(...)` returning `None` makes the following `.get_text()` raise an
`AttributeError`, which is modelled as `Except.error`. -/
def extractQuote (now : String) (d : QuoteDiv) : Except String Quote :=
  match d.textElem with
  | none => .error "AttributeError: NoneType object has no attribute get_text"
  | some t =>
    match d.authorElem with
    | none => .error "AttributeError: NoneType object has no attribute get_text"
    | some a => .ok { text := t, author := a, tags := d.tagElems, scraped_at := now }

/-- The `for quote in quote_elements` loop of quote_scraper.py:60-75, stamping
the i-th extracted record with the clock reading `clock i`.  An error raised
for any container aborts the loop, since nothing here is caught. -/
def extractQuotes (clock : Nat → String) : Nat → List QuoteDiv → Except String (List Quote)
  | _, [] => .ok []
  | i, d :: rest => do
    let q ← extractQuote (clock i) d
    let qs ← extractQuotes clock (i + 1) rest
    pure (q :: qs)

/-- `QuoteScraper.scrape_page` (quote_scraper.py:40-81).  `fetch` models the
session/transport for each page index; `clock` models `datetime.now()`.  The
`except requests.RequestException` arm catches transport failures and the
`HTTPError` from `raise_for_status`, logging and returning the empty list; an
extraction `AttributeError` is not caught and escapes as `Except.error`. -/
def scrape_page (fetch : Nat → HttpResult) (clock : Nat → String) (page_num : Nat) :
    Except String (List Quote) :=
  match fetch page_num with
  | .transportError _ => .ok []
  | .response status body =>
    if errorStatus status then .ok []
    else extractQuotes clock 0 body

example :
    scrape_page (fun _ => .response 200 [⟨some "q", some "A", ["t"]⟩]) (fun _ => "now") 1
      = .ok [⟨"q", "A", ["t"], "now"⟩] := rfl

example :
    scrape_page (fun _ => .transportError "connection refused") (fun _ => "now") 1
      = .ok [] := rfl

example :
    scrape_page (fun _ => .response 200 [⟨some "q", some "A", []⟩, ⟨some "q2", none, []⟩])
      (fun _ => "now") 1
      = .error "AttributeError: NoneType object has no attribute get_text" := rfl

/-- `QuoteScraper.scrape_all`'s `for page_num in range(1, max_pages + 1)` loop
(quote_scraper.py:96-109), with `n` iterations left, current page index `page`,
the collection `self.quotes` accumulated so far in `acc`, and the page indices
requested so far in `reqs`.  `sp` models `self.scrape_page`; an exception it
raises propagates.  A page yielding no quotes breaks out of the loop after the
request was made; otherwise the page's quotes are appended in order.  The
`time.sleep(delay)` between requests does not affect the result and is not
modelled. -/
def scrape_all_go (sp : Nat → Except String (List Quote)) :
    Nat → Nat → List Quote → List Nat → Except String (List Quote × List Nat)
  | 0, _, acc, reqs => .ok (acc, reqs)
  | n + 1, page, acc, reqs =>
    match sp page with
    | .error e => .error e
    | .ok [] => .ok (acc, reqs ++ [page])
    | .ok qs => scrape_all_go sp n (page + 1) (acc ++ qs) (reqs ++ [page])

/-- `QuoteScraper.scrape_all` (quote_scraper.py:83-112) starting from the
collection `init` (the constructor sets `self.quotes = []`).  Returns the final
collection `self.quotes` paired with the list of page indices that were
requested, in request order. -/
def scrape_all (sp : Nat → Except String (List Quote)) (max_pages : Nat)
    (init : List Quote) : Except String (List Quote × List Nat) :=
  scrape_all_go sp max_pages 1 init []

/-- Reference characterization of the stopping rule, following the spec: the
per-page record lists of the pages processed, page by page starting at `page`
with `n` loop iterations allowed, cut off at (and excluding) the first page
that yields zero records. -/
def pagesUntilEmpty (pages : Nat → List Quote) : Nat → Nat → List (List Quote)
  | 0, _ => []
  | n + 1, page =>
    if pages page = [] then []
    else pages page :: pagesUntilEmpty pages n (page + 1)

/-- Reference count of loop iterations actually performed (= pages requested):
the pages up to and including the first empty one, capped at `n` iterations. -/
def fetchedCount (pages : Nat → List Quote) : Nat → Nat → Nat
  | 0, _ => 0
  | n + 1, page =>
    if pages page = [] then 1
    else fetchedCount pages n (page + 1) + 1

/-- A row written by `csv.DictWriter.writerow` at quote_scraper.py:136: the
copied dict with the `tags` list flattened to one string. -/
structure CsvRecord where
  text : String
  author : String
  tags : String
  scraped_at : String
deriving DecidableEq, Repr

/-- The result of an export call: either a file was written, or the collection
was empty and the call returned early after printing a diagnostic
(quote_scraper.py:121-123 and 147-149) without touching the filesystem.  There
is no error constructor: neither path raises. -/
inductive ExportOutcome (α : Type) where
  | wrote (file : α)
  | skippedEmpty (diagnostic : String)
deriving DecidableEq, Repr

/-- The CSV file contents: the header row written by `writeheader` and the data
rows written by the `writerow` loop, in order. -/
structure CsvFile where
  header : List String
  rows : List CsvRecord
deriving DecidableEq, Repr

/-- The body of the `for quote in self.quotes` loop at quote_scraper.py:132-136:
`quote_copy = quote.copy()` makes a shallow copy, the copy's `tags` entry is
replaced by `", ".join(quote["tags"])`, and the copy is written.  Returns the
row written together with the state of the original record after the loop body
(the original dict is never assigned to, only its copy). -/
def writeQuoteRow (q : Quote) : CsvRecord × Quote :=
  let quote_copy : Quote := { q with tags := q.tags }
  let row : CsvRecord :=
    { text := quote_copy.text, author := quote_copy.author,
      tags := String.intercalate ", " q.tags, scraped_at := quote_copy.scraped_at }
  (row, q)

/-- The full `writerow` loop: the rows written, in collection order, together
with the collection as it stands after the loop. -/
def writeRows : List Quote → List CsvRecord × List Quote
  | [] => ([], [])
  | q :: qs =>
    let (row, q2) := writeQuoteRow q
    let (rows, qs2) := writeRows qs
    (row :: rows, q2 :: qs2)

/-- `QuoteScraper.export_to_csv` (quote_scraper.py:114-138) acting on the
collection `self.quotes`: returns the export outcome and the collection after
the call. -/
def export_to_csv (quotes : List Quote) : ExportOutcome CsvFile × List Quote :=
  if quotes = [] then (.skippedEmpty "No quotes to export!", quotes)
  else
    let (rows, quotes2) := writeRows quotes
    (.wrote { header := ["text", "author", "tags", "scraped_at"], rows := rows }, quotes2)

/-- JSON values as produced by `json.dump` for the data this program handles:
strings, arrays, and objects with ordered keys. -/
inductive Json where
  | str (s : String)
  | arr (xs : List Json)
  | obj (fields : List (String × Json))
deriving Repr

/-- The JSON value `json.dump` serializes for one quote dict: an object with
the keys in insertion order, `tags` as a nested array of strings. -/
def quoteToJson (q : Quote) : Json :=
  .obj [("text", .str q.text), ("author", .str q.author),
        ("tags", .arr (q.tags.map .str)), ("scraped_at", .str q.scraped_at)]

/-- `QuoteScraper.export_to_json` (quote_scraper.py:140-156): for a non-empty
collection, `json.dump(self.quotes, ...)` writes the array of quote objects in
collection order; for an empty collection the call prints a diagnostic and
returns without writing.  The string layer (indent=2, ensure_ascii=False,
UTF-8) is the black-box `json` library and is modelled at the JSON-value
level. -/
def export_to_json (quotes : List Quote) : ExportOutcome Json :=
  if quotes = [] then .skippedEmpty "No quotes to export!"
  else .wrote (.arr (quotes.map quoteToJson))

/-- Parsing a JSON array of strings back into the list of strings, as
`json.load` recovers a `tags` value.  Fails on any non-string element. -/
def jsonStrings : List Json → Option (List String)
  | [] => some []
  | .str s :: rest => (jsonStrings rest).map (s :: ·)
  | _ => none

/-- Parsing one serialized quote object back into a record: the structural
inverse of `quoteToJson`, as `json.load` recovers the dict. -/
def jsonToQuote : Json → Option Quote
  | .obj [("text", .str t), ("author", .str a), ("tags", .arr ts), ("scraped_at", .str s)] =>
    (jsonStrings ts).map fun tags => { text := t, author := a, tags := tags, scraped_at := s }
  | _ => none

/-- Parsing the serialized array element by element, preserving order. -/
def jsonToQuoteList : List Json → Option (List Quote)
  | [] => some []
  | j :: js =>
    match jsonToQuote j, jsonToQuoteList js with
    | some q, some qs => some (q :: qs)
    | _, _ => none

/-- Parsing an exported JSON document back into a quote sequence. -/
def jsonToQuotes : Json → Option (List Quote)
  | .arr js => jsonToQuoteList js
  | _ => none

/-- Python's `max(iterable, key=count)` over an iteration order `order` of a
set: returns the first element of the order whose count (in `occurrences`) is
maximal, since `max` only replaces the current best on a strictly greater
key. Returns none on an empty iterable (`max` would raise `ValueError`, but
both call sites are guarded). -/
def maxByCount (occurrences : List String) (order : List String) : Option String :=
  match order with
  | [] => none
  | x :: xs =>
    some (xs.foldl (fun best y =>
      if occurrences.count y > occurrences.count best then y else best) x)

/-- The statistics dict built at quote_scraper.py:171-177. -/
structure Stats where
  total_quotes : Nat
  unique_authors : Nat
  most_common_author : Option String
  unique_tags : Nat
  most_common_tag : Option String
deriving DecidableEq, Repr

/-- `QuoteScraper.get_statistics` (quote_scraper.py:158-177).  Returns `none`
for the empty dict `{}` returned on an empty collection.  Python iterates the
unordered `set(authors)` and `set(all_tags)` in an unspecified order; those
iteration orders are the parameters `authorOrder` and `tagOrder` (a faithful
instantiation passes a duplicate-free enumeration of exactly the distinct
authors, resp. distinct tags). -/
def get_statistics (authorOrder tagOrder : List String) (quotes : List Quote) :
    Option Stats :=
  if quotes = [] then none
  else
    let authors := quotes.map (·.author)
    let all_tags := quotes.flatMap (·.tags)
    some
      { total_quotes := quotes.length
        unique_authors := authors.dedup.length
        most_common_author := maxByCount authors authorOrder
        unique_tags := all_tags.dedup.length
        most_common_tag := if all_tags = [] then none else maxByCount all_tags tagOrder }

/-- Reference closed form for the records a fully well-formed page extracts:
one record per container in document order, the i-th stamped with `clock i`. -/
def extractedQuotes (clock : Nat → String) : Nat → List QuoteDiv → List Quote
  | _, [] => []
  | i, d :: rest =>
    { text := d.textElem.getD "", author := d.authorElem.getD "",
      tags := d.tagElems, scraped_at := clock i } :: extractedQuotes clock (i + 1) rest

lemma writeRows_eq (quotes : List Quote) :
    writeRows quotes =
      (quotes.map fun q =>
        ({ text := q.text, author := q.author,
           tags := String.intercalate ", " q.tags,
           scraped_at := q.scraped_at } : CsvRecord), quotes) := by
  induction quotes with
  | nil => rfl
  | cons q qs ih => simp [writeRows, writeQuoteRow, ih]

/-- C2: for every page index, if the HTTP request fails at the transport level
or returns a non-success (4xx/5xx) status, `scrape_page` catches the error and
returns the empty list; no transport or protocol error propagates to the
caller. -/
theorem c2_transport_and_protocol_errors_yield_empty
    (fetch : Nat → HttpResult) (clock : Nat → String) (page_num : Nat)
    (h : (∃ msg, fetch page_num = .transportError msg) ∨
         (∃ status body, fetch page_num = .response status body ∧
            errorStatus status = true)) :
    scrape_page fetch clock page_num = .ok [] := by
  rcases h with ⟨msg, hm⟩ | ⟨status, body, hr, hs⟩
  · simp [scrape_page, hm]
  · simp [scrape_page, hr, hs]

/-- Witness for C2 at two concrete failing fetches: a transport failure and a
404 response whose body would otherwise contain a quote. -/
theorem c2_witness :
    scrape_page (fun _ => .transportError "connection refused") (fun _ => "t") 1 = .ok [] ∧
    scrape_page (fun _ => .response 404 [⟨some "q", some "A", []⟩]) (fun _ => "t") 2 = .ok [] :=
  ⟨c2_transport_and_protocol_errors_yield_empty _ _ 1
      (Or.inl ⟨"connection refused", rfl⟩),
   c2_transport_and_protocol_errors_yield_empty _ _ 2
      (Or.inr ⟨404, [⟨some "q", some "A", []⟩], rfl, rfl⟩)⟩

/-- C5: `scrape_all` with `max_pages = 0` performs zero loop iterations: no
page is ever requested and the collection stays empty. -/
theorem c5_zero_max_pages_is_noop (sp : Nat → Except String (List Quote)) :
    scrape_all sp 0 [] = .ok ([], []) := rfl

/-- C9: on an empty collection, `get_statistics` returns the empty dict rather
than raising, and both exports return early with only the diagnostic, writing
no file and raising no error. -/
theorem c9_empty_collection_behaviour (authorOrder tagOrder : List String) :
    get_statistics authorOrder tagOrder [] = none ∧
    export_to_csv [] = (.skippedEmpty "No quotes to export!", []) ∧
    export_to_json [] = .skippedEmpty "No quotes to export!" :=
  ⟨rfl, rfl, rfl⟩

/-- C10: `export_to_csv` does not mutate the collection: each record is copied
before its tags are joined, so the collection after export is the very same
list (every record keeps its original tags list), and `get_statistics` and
`export_to_json` are unaffected by a prior CSV export. -/
theorem c10_csv_export_does_not_mutate (quotes : List Quote)
    (authorOrder tagOrder : List String) :
    (export_to_csv quotes).2 = quotes ∧
    (∀ q, (writeQuoteRow q).2 = q) ∧
    get_statistics authorOrder tagOrder (export_to_csv quotes).2 =
      get_statistics authorOrder tagOrder quotes ∧
    export_to_json (export_to_csv quotes).2 = export_to_json quotes := by
  have h2 : (export_to_csv quotes).2 = quotes := by
    unfold export_to_csv
    by_cases h : quotes = []
    · simp [h]
    · rw [if_neg h, writeRows_eq]
  exact ⟨h2, fun q => rfl, by rw [h2], by rw [h2]⟩

/-- C6: CSV export of a non-empty collection writes the header row
`text, author, tags, scraped_at` followed by one data row per record in
collection order, the tags field being the record's tags joined with the
two-character separator `", "`. -/
theorem c6_csv_export_format (quotes : List Quote) (h : quotes ≠ []) :
    export_to_csv quotes =
      (.wrote { header := ["text", "author", "tags", "scraped_at"],
                rows := quotes.map fun q =>
                  { text := q.text, author := q.author,
                    tags := String.intercalate ", " q.tags,
                    scraped_at := q.scraped_at } }, quotes) := by
  unfold export_to_csv
  rw [if_neg h, writeRows_eq]

/-- Witness for C6: a one-record collection with tags `["a", "b"]` exports with
the tags field literally `"a, b"`. -/
theorem c6_witness :
    export_to_csv [{ text := "Life", author := "A", tags := ["a", "b"], scraped_at := "2024" }] =
      (.wrote { header := ["text", "author", "tags", "scraped_at"],
                rows := [{ text := "Life", author := "A", tags := "a, b", scraped_at := "2024" }] },
       [{ text := "Life", author := "A", tags := ["a", "b"], scraped_at := "2024" }]) := by
  rw [c6_csv_export_format _ (by simp)]
  rfl

lemma scrape_all_go_pure (pages : Nat → List Quote) :
    ∀ (n page : Nat) (acc : List Quote) (reqs : List Nat),
      scrape_all_go (fun k => .ok (pages k)) n page acc reqs =
        .ok (acc ++ (pagesUntilEmpty pages n page).flatten,
             reqs ++ List.range' page (fetchedCount pages n page))
  | 0, page, acc, reqs => by
    simp [scrape_all_go, pagesUntilEmpty, fetchedCount]
  | n + 1, page, acc, reqs => by
    by_cases h : pages page = []
    · simp [scrape_all_go, pagesUntilEmpty, fetchedCount, h, List.range'_succ]
    · have ih := scrape_all_go_pure pages n (page + 1) (acc ++ pages page) (reqs ++ [page])
      cases hp : pages page with
      | nil => exact absurd hp h
      | cons q qs =>
        rw [hp] at ih
        simp only [scrape_all_go, hp]
        rw [ih]
        simp [pagesUntilEmpty, fetchedCount, h, hp, List.range'_succ]

lemma pagesUntilEmpty_ne_nil (pages : Nat → List Quote) :
    ∀ (n page : Nat), ∀ l ∈ pagesUntilEmpty pages n page, l ≠ []
  | 0, page => by simp [pagesUntilEmpty]
  | n + 1, page => by
    by_cases h : pages page = []
    · simp [pagesUntilEmpty, h]
    · simp only [pagesUntilEmpty, if_neg h, List.mem_cons]
      rintro l (rfl | hl)
      · exact h
      · exact pagesUntilEmpty_ne_nil pages n (page + 1) l hl

lemma fetchedCount_le (pages : Nat → List Quote) :
    ∀ (n page : Nat), fetchedCount pages n page ≤ n
  | 0, _ => Nat.le_refl 0
  | n + 1, page => by
    by_cases h : pages page = []
    · simp [fetchedCount, h]
    · simp only [fetchedCount, if_neg h]
      exact Nat.succ_le_succ (fetchedCount_le pages n (page + 1))

/-- C3: `scrape_all` with `max_pages = N`, starting from the empty collection
and scraping pages that never raise, requests consecutive page indices
starting at 1 and stops at the first page yielding zero records (requesting at
most N pages even when more non-empty pages exist); the final collection is
the in-order concatenation of the per-page record lists of the non-empty pages
processed, so its length is the sum of those per-page counts. -/
theorem c3_scrape_all_stopping_and_length (pages : Nat → List Quote) (N : Nat) :
    scrape_all (fun k => .ok (pages k)) N [] =
      .ok ((pagesUntilEmpty pages N 1).flatten,
           List.range' 1 (fetchedCount pages N 1)) ∧
    (pagesUntilEmpty pages N 1).flatten.length =
      ((pagesUntilEmpty pages N 1).map List.length).sum ∧
    (∀ l ∈ pagesUntilEmpty pages N 1, l ≠ []) ∧
    fetchedCount pages N 1 ≤ N := by
  refine ⟨?_, List.length_flatten _, pagesUntilEmpty_ne_nil pages N 1, fetchedCount_le pages N 1⟩
  have h := scrape_all_go_pure pages N 1 [] []
  simpa [scrape_all] using h

lemma jsonStrings_map_str (l : List String) : jsonStrings (l.map Json.str) = some l := by
  induction l with
  | nil => rfl
  | cons s rest ih => simp [jsonStrings, ih]

lemma jsonToQuote_quoteToJson (q : Quote) : jsonToQuote (quoteToJson q) = some q := by
  cases q with
  | mk t a tags s => simp [quoteToJson, jsonToQuote, jsonStrings_map_str]

lemma jsonToQuoteList_map (quotes : List Quote) :
    jsonToQuoteList (quotes.map quoteToJson) = some quotes := by
  induction quotes with
  | nil => rfl
  | cons q qs ih => simp [jsonToQuoteList, jsonToQuote_quoteToJson, ih]

/-- C7: exporting a non-empty collection with `export_to_json` writes the
array of record objects in collection order, and parsing that document back
yields exactly the original collection: same elements in the same order, same
field values, tags preserved as an array in the original order. -/
theorem c7_json_round_trip (quotes : List Quote) (h : quotes ≠ []) :
    export_to_json quotes = .wrote (.arr (quotes.map quoteToJson)) ∧
    jsonToQuotes (.arr (quotes.map quoteToJson)) = some quotes := by
  constructor
  · unfold export_to_json
    rw [if_neg h]
  · simpa [jsonToQuotes] using jsonToQuoteList_map quotes

/-- Witness for C7 at a concrete two-record collection with multi-element and
empty tag lists. -/
theorem c7_witness :
    export_to_json
        [{ text := "q1", author := "A", tags := ["a", "b"], scraped_at := "s1" },
         { text := "q2", author := "B", tags := [], scraped_at := "s2" }] =
      .wrote (.arr
        ([{ text := "q1", author := "A", tags := ["a", "b"], scraped_at := "s1" },
          { text := "q2", author := "B", tags := [], scraped_at := "s2" }].map quoteToJson)) ∧
    jsonToQuotes (.arr
        ([{ text := "q1", author := "A", tags := ["a", "b"], scraped_at := "s1" },
          { text := "q2", author := "B", tags := [], scraped_at := "s2" }].map quoteToJson)) =
      some [{ text := "q1", author := "A", tags := ["a", "b"], scraped_at := "s1" },
            { text := "q2", author := "B", tags := [], scraped_at := "s2" }] :=
  c7_json_round_trip _ (by simp)

lemma perm_pair_cases {α : Type} {a b : α} {l : List α}
    (h : l.Perm [a, b]) : l = [a, b] ∨ l = [b, a] := by
  have hlen := h.length_eq
  match l, h, hlen with
  | [], h, hlen => simp at hlen
  | [x], h, hlen => simp at hlen
  | x :: y :: z :: t, h, hlen => simp at hlen
  | [x, y], h, hlen =>
    have hx : x = a ∨ x = b := by
      have hm : x ∈ ([a, b] : List α) := h.mem_iff.mp (by simp)
      simpa using hm
    have hy : y = a ∨ y = b := by
      have hm : y ∈ ([a, b] : List α) := h.mem_iff.mp (by simp)
      simpa using hm
    rcases hx with hx | hx <;> rcases hy with hy | hy
    · have hb : b ∈ [x, y] := h.mem_iff.mpr (by simp)
      rw [hx, hy] at hb
      have hba : b = a := by simpa using hb
      rw [hx, hy, hba]
      exact Or.inl rfl
    · rw [hx, hy]
      exact Or.inl rfl
    · rw [hx, hy]
      exact Or.inr rfl
    · have haa : a ∈ [x, y] := h.mem_iff.mpr (by simp)
      rw [hx, hy] at haa
      have hab : a = b := by simpa using haa
      rw [hx, hy, hab]
      exact Or.inl rfl

/-- The three-record collection of the spec's statistics test case: authors X
(twice) and Y, tags t1 (twice) and t2 (twice). -/
def statsSample : List Quote :=
  [{ text := "q1", author := "X", tags := ["t1"], scraped_at := "s1" },
   { text := "q2", author := "X", tags := ["t1", "t2"], scraped_at := "s2" },
   { text := "q3", author := "Y", tags := ["t2"], scraped_at := "s3" }]

/-- C8: on the sample collection, for every iteration order of the author set
(an enumeration of its two elements) and of the tag set, `get_statistics`
returns total_quotes 3, unique_authors 2, most_common_author X, unique_tags 2,
and a most_common_tag that is one of t1 and t2. -/
theorem c8_statistics_sample (authorOrder tagOrder : List String)
    (ha : authorOrder.Perm ["X", "Y"]) (ht : tagOrder.Perm ["t1", "t2"]) :
    get_statistics authorOrder tagOrder statsSample =
      some { total_quotes := 3, unique_authors := 2, most_common_author := some "X",
             unique_tags := 2, most_common_tag := some "t1" } ∨
    get_statistics authorOrder tagOrder statsSample =
      some { total_quotes := 3, unique_authors := 2, most_common_author := some "X",
             unique_tags := 2, most_common_tag := some "t2" } := by
  rcases perm_pair_cases ha with rfl | rfl <;> rcases perm_pair_cases ht with rfl | rfl <;>
    first
      | exact Or.inl (by decide)
      | exact Or.inr (by decide)

/-- Witness for C8 at the iteration orders X, Y and t1, t2. -/
theorem c8_witness :
    get_statistics ["X", "Y"] ["t1", "t2"] statsSample =
      some { total_quotes := 3, unique_authors := 2, most_common_author := some "X",
             unique_tags := 2, most_common_tag := some "t1" } ∨
    get_statistics ["X", "Y"] ["t1", "t2"] statsSample =
      some { total_quotes := 3, unique_authors := 2, most_common_author := some "X",
             unique_tags := 2, most_common_tag := some "t2" } :=
  c8_statistics_sample ["X", "Y"] ["t1", "t2"] (List.Perm.refl _) (List.Perm.refl _)

lemma extractQuotes_all_ok (clock : Nat → String) :
    ∀ (body : List QuoteDiv) (i : Nat),
      (∀ d ∈ body, d.textElem.isSome ∧ d.authorElem.isSome) →
      extractQuotes clock i body = .ok (extractedQuotes clock i body)
  | [], _, _ => rfl
  | d :: rest, i, h => by
    have hd := h d (List.mem_cons_self d rest)
    have hrest : ∀ d' ∈ rest, d'.textElem.isSome ∧ d'.authorElem.isSome :=
      fun d' hd' => h d' (List.mem_cons_of_mem d hd')
    obtain ⟨t, ht⟩ := Option.isSome_iff_exists.mp hd.1
    obtain ⟨a, ha⟩ := Option.isSome_iff_exists.mp hd.2
    have ih := extractQuotes_all_ok clock rest (i + 1) hrest
    simp [extractQuotes, extractQuote, extractedQuotes, ht, ha, ih, bind, Except.bind, pure, Except.pure]

lemma extractQuotes_aborts (clock : Nat → String) :
    ∀ (body : List QuoteDiv) (i : Nat),
      (∃ d ∈ body, d.textElem = none ∨ d.authorElem = none) →
      ∃ e, extractQuotes clock i body = .error e
  | [], _, h => by simp at h
  | d :: rest, i, h => by
    cases hq : extractQuote (clock i) d with
    | error e => exact ⟨e, by simp [extractQuotes, hq, bind, Except.bind]⟩
    | ok q =>
      rcases h with ⟨d', hd', hmiss⟩
      rcases List.mem_cons.mp hd' with rfl | hmem
      · rcases hmiss with hnone | hnone
        · simp [extractQuote, hnone] at hq
        · cases htx : d'.textElem <;> simp [extractQuote, htx, hnone] at hq
      · obtain ⟨e, he⟩ := extractQuotes_aborts clock rest (i + 1) ⟨d', hmem, hmiss⟩
        exact ⟨e, by simp [extractQuotes, hq, he, bind, Except.bind]⟩

/-- Counterexample to C1 as stated: a successful page with two containers, the
first fully well-formed and the second missing its author sub-element.  The
claim requires the malformed record alone to be skipped and the first record
still returned; instead the uncaught AttributeError aborts the whole page and
escapes to the caller, so no record at all is produced. -/
theorem c1_counterexample :
    scrape_page
        (fun _ => .response 200 [⟨some "q1", some "A", ["t"]⟩, ⟨some "q2", none, []⟩])
        (fun _ => "now") 1
      = .error "AttributeError: NoneType object has no attribute get_text" := rfl

/-- C1 (amended): on a successfully fetched page whose containers all have
both a text and an author sub-element, `scrape_page` returns one record per
container in document order; but as soon as any container misses its text or
author sub-element, the whole page's extraction aborts with an uncaught error
(no record of that page is returned and the error escapes to the caller). -/
theorem c1_page_extraction_amended (fetch : Nat → HttpResult) (clock : Nat → String)
    (page_num status : Nat) (body : List QuoteDiv)
    (hf : fetch page_num = .response status body) (hs : errorStatus status = false) :
    ((∀ d ∈ body, d.textElem.isSome ∧ d.authorElem.isSome) →
      scrape_page fetch clock page_num = .ok (extractedQuotes clock 0 body)) ∧
    ((∃ d ∈ body, d.textElem = none ∨ d.authorElem = none) →
      ∃ e, scrape_page fetch clock page_num = .error e) := by
  constructor
  · intro hall
    simp [scrape_page, hf, hs, extractQuotes_all_ok clock body 0 hall]
  · intro hmiss
    obtain ⟨e, he⟩ := extractQuotes_aborts clock body 0 hmiss
    exact ⟨e, by simp [scrape_page, hf, hs, he]⟩

/-- Witness for C1 (amended) at a concrete two-container page in which every
container is well-formed: both records come back, in document order, each with
its own clock stamp. -/
theorem c1_witness :
    scrape_page
        (fun _ => .response 200
          [⟨some "q1", some "A", ["t"]⟩, ⟨some "q2", some "B", []⟩])
        (fun i => if i = 0 then "s0" else "s1") 1
      = .ok [{ text := "q1", author := "A", tags := ["t"], scraped_at := "s0" },
             { text := "q2", author := "B", tags := [], scraped_at := "s1" }] := by
  have h := (c1_page_extraction_amended
      (fun _ => .response 200 [⟨some "q1", some "A", ["t"]⟩, ⟨some "q2", some "B", []⟩])
      (fun i => if i = 0 then "s0" else "s1") 1 200
      [⟨some "q1", some "A", ["t"]⟩, ⟨some "q2", some "B", []⟩] rfl rfl).1 (by decide)
  exact h.trans rfl

/-- Reference model of the trimming the spec asks for: leading and trailing
whitespace characters stripped from the text content. -/
def trimSpec (s : String) : String :=
  ⟨((s.data.dropWhile Char.isWhitespace).reverse.dropWhile Char.isWhitespace).reverse⟩

/-- Counterexample to C4 as stated: a container whose text and author carry
surrounding whitespace.  The record stores the raw text content of the
sub-elements, not the whitespace-stripped form the claim requires. -/
theorem c4_counterexample :
    scrape_page (fun _ => .response 200 [⟨some " hello ", some " A ", ["t"]⟩])
        (fun _ => "now") 1
      = .ok [{ text := " hello ", author := " A ", tags := ["t"], scraped_at := "now" }] ∧
    trimSpec " hello " = "hello" ∧ (" hello " : String) ≠ "hello" ∧
    trimSpec " A " = "A" ∧ (" A " : String) ≠ "A" :=
  ⟨rfl, by decide, by decide, by decide, by decide⟩

/-- C4 (amended): every extracted record stores the exact (untrimmed) text
content of the text and author sub-elements, and its tags field is the ordered
list of tag labels as they appear in the document, zero tags being valid. -/
theorem c4_record_fields_amended (now : String) (d : QuoteDiv) (t a : String)
    (ht : d.textElem = some t) (ha : d.authorElem = some a) :
    extractQuote now d =
      .ok { text := t, author := a, tags := d.tagElems, scraped_at := now } := by
  simp [extractQuote, ht, ha]

/-- Witness for C4 (amended) at a concrete container with whitespace-bearing
text content and two tags. -/
theorem c4_witness :
    extractQuote "now" ⟨some " hello ", some "A", ["x", "y"]⟩ =
      .ok { text := " hello ", author := "A", tags := ["x", "y"], scraped_at := "now" } :=
  c4_record_fields_amended "now" ⟨some " hello ", some "A", ["x", "y"]⟩ " hello " "A" rfl rfl
